import Mathlib

/-!
Shallow embedding of `api/renewer.go` (the Vault secret/auth renewal
watchdog) and verification of the specification's claims about it.

Go's `time.Duration` is an `int64` counting nanoseconds; we model it as an
`Int` wrapped into the signed 64-bit range (`wrap64`) exactly at the
operations where the Go code can overflow (conversion of a lease duration
in seconds to a `time.Duration`, and the sleep-interval computation
`time.Duration(leaseDuration/2.0) * time.Second`).

The renewal loop interacts with a remote service and with a cancellation
channel; we embed it as a function over an explicit trace of per-iteration
environment records (`IterEnv`): whether the stop channel is ready at the
top-of-loop check, the remote call's result, and whether the stop channel
wins the sleep `select`. The loop result (`LoopOut`) records the terminal
outcome (when reached within the trace), the number of remote calls made,
the number of tick publications attempted, and the computed sleep
durations.
-/

namespace Vault

/-- Nanoseconds per second: Go's `time.Second` as an int64 duration. -/
def nanosPerSecond : Int := 1000000000

/-- Two-complement wrap of an integer into the signed 64-bit range,
modelling Go int64 overflow. -/
def wrap64 (x : Int) : Int := (x + 2 ^ 63) % 2 ^ 64 - 2 ^ 63

/-- The auth payload of a secret: `SecretAuth` fields used by the renewer
(`ClientToken`, `Renewable`, `LeaseDuration` in seconds). -/
structure SecretAuth where
  clientToken : String
  renewable : Bool
  leaseDuration : Int
  deriving Repr, DecidableEq

/-- A secret: the fields of `api.Secret` the renewer reads (`LeaseID`,
`Renewable`, `LeaseDuration` in seconds, optional `Auth`). -/
structure Secret where
  leaseID : String
  renewable : Bool
  leaseDuration : Int
  auth : Option SecretAuth
  deriving Repr, DecidableEq

/-- `RenewerInput`: the construction input (`Secret` pointer, `Grace` as a
`time.Duration` in nanoseconds). -/
structure RenewerInput where
  secret : Option Secret
  grace : Int
  deriving Repr, DecidableEq

/-- The renewer's error values (`ErrRenewerMissingInput` etc.), plus
`remote` for an opaque error returned by the remote renewal call. -/
inductive RenewerErr where
  | missingInput
  | missingSecret
  | notRenewable
  | noSecretData
  | remote (code : Nat)
  deriving Repr, DecidableEq

/-- `DefaultRenewerGrace = 15 * time.Second`. -/
def DefaultRenewerGrace : Int := 15 * nanosPerSecond

/-- The `Renewer` state built by `NewRenewer`: immutable secret and grace,
the two outbound channels (modelled by their buffer capacities), and the
mutex-guarded stop state. `closeCount` counts invocations of
`close(stopCh)`, to express that the channel is never closed twice. -/
structure Renewer where
  secret : Secret
  grace : Int
  doneCapacity : Nat
  tickCapacity : Nat
  stopped : Bool
  stopClosed : Bool
  closeCount : Nat
  deriving Repr, DecidableEq

/-- `Client.NewRenewer`: validate the input (nil input, then nil secret),
default a zero grace to `DefaultRenewerGrace`, and allocate the channels
(`doneCh` capacity 1, `tickCh` capacity 5) and the not-stopped signal.
No I/O is modelled because the Go constructor performs none. -/
def NewRenewer (i : Option RenewerInput) : Except RenewerErr Renewer :=
  match i with
  | none => .error .missingInput
  | some inp =>
    match inp.secret with
    | none => .error .missingSecret
    | some s =>
      let grace := if inp.grace = 0 then DefaultRenewerGrace else inp.grace
      .ok { secret := s, grace := grace, doneCapacity := 1, tickCapacity := 5,
            stopped := false, stopClosed := false, closeCount := 0 }

/-- `Renewer.Stop`: under the mutex, if not already stopped, close the stop
channel and mark stopped; otherwise do nothing. -/
def Renewer.Stop (r : Renewer) : Renewer :=
  if !r.stopped then
    { r with stopClosed := true, stopped := true, closeCount := r.closeCount + 1 }
  else r

/-- Whether a call to `Stop` on this state would execute `close` on an
already-closed channel — the only way `Stop` could panic in Go. -/
def Renewer.stopWouldPanic (r : Renewer) : Bool := !r.stopped && r.stopClosed

/-- n successive calls to `Stop` on the same renewer. -/
def iterStop : Nat → Renewer → Renewer
  | 0, r => r
  | n + 1, r => (iterStop n r).Stop

/-- A nonblocking send on a Go channel completes without any receiver
exactly when the buffer has free capacity. -/
def sendCompletesWithoutReceiver (capacity buffered : Nat) : Bool :=
  decide (buffered < capacity)

/-- The result of one remote renewal call: an error, or a `*Secret`
renewal payload that may be nil. -/
inductive RemoteOutcome where
  | err (code : Nat)
  | ok (renewal : Option Secret)
  deriving Repr, DecidableEq

/-- Environment of one loop iteration: whether `stopCh` is ready at the
top-of-loop nonblocking check, the remote call result, and whether the
`stopCh` case wins the sleep `select`. -/
structure IterEnv where
  stopReadyAtCheck : Bool
  remote : RemoteOutcome
  stopWinsSleep : Bool
  deriving Repr, DecidableEq

/-- Result of running the renewal loop over a finite trace: `term` when
the loop returned within the trace (with its outcome: `none` is Go `nil`),
`more` when the trace was exhausted with the loop still running. Both
record the remote calls made, the tick publications attempted, and the
computed sleep durations in order. -/
inductive LoopOut where
  | term (outcome : Option RenewerErr) (calls ticks : Nat) (sleeps : List Int)
  | more (calls ticks : Nat) (sleeps : List Int)
  deriving Repr, DecidableEq

/-- Prepend one iteration's statistics (one call, one tick attempt, one
sleep) onto a loop result. -/
def LoopOut.bump (c t : Nat) (s : Int) : LoopOut → LoopOut
  | .term o c2 t2 ss => .term o (c + c2) (t + t2) (s :: ss)
  | .more c2 t2 ss => .more (c + c2) (t + t2) (s :: ss)

/-- The terminal outcome, when the loop terminated within the trace. -/
def LoopOut.terminalOutcome : LoopOut → Option (Option RenewerErr)
  | .term o _ _ _ => some o
  | .more _ _ _ => none

/-- Number of remote renewal calls made. -/
def LoopOut.remoteCalls : LoopOut → Nat
  | .term _ c _ _ => c
  | .more c _ _ => c

/-- Number of tick publications attempted. -/
def LoopOut.tickPushes : LoopOut → Nat
  | .term _ _ t _ => t
  | .more _ t _ => t

/-- `time.Duration(n) * time.Second`: seconds to nanoseconds with int64
overflow. -/
def durOfSeconds (n : Int) : Int := wrap64 (n * nanosPerSecond)

/-- The sleep interval the loop passes to `time.After`:
`time.Duration(leaseDuration/2.0) * time.Second`, where `leaseDuration` is
already a duration in nanoseconds; Go's `/` truncates toward zero and the
product wraps in int64. -/
def sleepNanos (leaseDurationNs : Int) : Int :=
  wrap64 (Int.tdiv leaseDurationNs 2 * nanosPerSecond)

/-- The body of `renewAuth`'s `for` loop, run over a finite trace of
iteration environments. Order of operations per iteration mirrors the Go
source: stop check, remote `RenewTokenAsSelf(token, 0)`, nonblocking tick
push, nil-renewal/nil-auth check, renewable check, grace check, sleep
`select`. -/
def renewAuthGo (grace : Int) : List IterEnv → LoopOut
  | [] => .more 0 0 []
  | e :: rest =>
    if e.stopReadyAtCheck then .term none 0 0 []
    else
      match e.remote with
      | .err c => .term (some (.remote c)) 1 0 []
      | .ok renewal =>
        match renewal with
        | none => .term (some .noSecretData) 1 1 []
        | some sec =>
          match sec.auth with
          | none => .term (some .noSecretData) 1 1 []
          | some a =>
            if !a.renewable then .term (some .notRenewable) 1 1 []
            else
              let leaseDuration := durOfSeconds a.leaseDuration
              if leaseDuration ≤ grace then .term none 1 1 []
              else
                if e.stopWinsSleep then .term none 1 1 [sleepNanos leaseDuration]
                else (renewAuthGo grace rest).bump 1 1 (sleepNanos leaseDuration)

/-- The body of `renewLease`'s `for` loop, run over a finite trace.
Mirrors the Go source: stop check, remote `Renew(leaseID, 0)`, nonblocking
tick push, nil-renewal check, renewable check, grace check, sleep
`select`. -/
def renewLeaseGo (grace : Int) : List IterEnv → LoopOut
  | [] => .more 0 0 []
  | e :: rest =>
    if e.stopReadyAtCheck then .term none 0 0 []
    else
      match e.remote with
      | .err c => .term (some (.remote c)) 1 0 []
      | .ok renewal =>
        match renewal with
        | none => .term (some .noSecretData) 1 1 []
        | some sec =>
          if !sec.renewable then .term (some .notRenewable) 1 1 []
          else
            let leaseDuration := durOfSeconds sec.leaseDuration
            if leaseDuration ≤ grace then .term none 1 1 []
            else
              if e.stopWinsSleep then .term none 1 1 [sleepNanos leaseDuration]
              else (renewLeaseGo grace rest).bump 1 1 (sleepNanos leaseDuration)

/-- `renewAuth`: precondition check (`Renewable` flag, nonempty
`ClientToken`) before entering the loop. -/
def renewAuth (a : SecretAuth) (grace : Int) (events : List IterEnv) : LoopOut :=
  if !a.renewable || a.clientToken == "" then .term (some .notRenewable) 0 0 []
  else renewAuthGo grace events

/-- `renewLease`: precondition check (`Renewable` flag, nonempty
`LeaseID`) before entering the loop. -/
def renewLease (s : Secret) (grace : Int) (events : List IterEnv) : LoopOut :=
  if !s.renewable || s.leaseID == "" then .term (some .notRenewable) 0 0 []
  else renewLeaseGo grace events

/-- `Renewer.Renew`: dispatch on whether the secret carries auth data, run
the corresponding variant; the terminal outcome is then written to
`doneCh`. -/
def Renewer.Renew (r : Renewer) (events : List IterEnv) : LoopOut :=
  match r.secret.auth with
  | some a => renewAuth a r.grace events
  | none => renewLease r.secret r.grace events

/-- An iteration environment that makes `renewAuth`'s loop continue to the
next iteration: not stopped, a successful renewable auth response with
lifetime above grace, and the timer (not stop) winning the sleep. -/
def continuesAuth (grace : Int) (e : IterEnv) : Bool :=
  if e.stopReadyAtCheck then false else
  match e.remote with
  | .ok (some sec) =>
    match sec.auth with
    | some a => a.renewable && decide (grace < durOfSeconds a.leaseDuration) && !e.stopWinsSleep
    | none => false
  | _ => false

/-- An iteration environment that makes `renewLease`'s loop continue to
the next iteration. -/
def continuesLease (grace : Int) (e : IterEnv) : Bool :=
  if e.stopReadyAtCheck then false else
  match e.remote with
  | .ok (some sec) =>
    sec.renewable && decide (grace < durOfSeconds sec.leaseDuration) && !e.stopWinsSleep
  | _ => false

end Vault

namespace Vault

/-- A concrete renewable auth payload used by witnesses. -/
def tokW : SecretAuth := { clientToken := "tok", renewable := true, leaseDuration := 100 }

/-- A concrete auth-bearing secret used by witnesses. -/
def secW : Secret := { leaseID := "lease-1", renewable := true, leaseDuration := 100, auth := some tokW }

/-- A concrete lease-only secret used by witnesses. -/
def leaseSecW : Secret := { leaseID := "lease-1", renewable := true, leaseDuration := 100, auth := none }

/-- Wrapping is the identity on the signed 64-bit range. -/
theorem wrap64_id (x : Int) (h1 : -9223372036854775808 ≤ x)
    (h2 : x ≤ 9223372036854775807) : wrap64 x = x := by
  unfold wrap64
  have e1 : (2 : Int) ^ 63 = 9223372036854775808 := by norm_num
  have e2 : (2 : Int) ^ 64 = 18446744073709551616 := by norm_num
  rw [e1, e2]
  omega

/-- Bumping statistics does not change the terminal outcome. -/
theorem LoopOut.bump_terminalOutcome (c t : Nat) (s : Int) (o : LoopOut) :
    (o.bump c t s).terminalOutcome = o.terminalOutcome := by
  cases o <;> rfl

/-- Bumping statistics adds to the call count. -/
theorem LoopOut.bump_remoteCalls (c t : Nat) (s : Int) (o : LoopOut) :
    (o.bump c t s).remoteCalls = c + o.remoteCalls := by
  cases o <;> rfl

/-- Stop is idempotent on any renewer state. -/
theorem stop_stop (r : Renewer) : r.Stop.Stop = r.Stop := by
  by_cases h : r.stopped
  · simp [Renewer.Stop, h]
  · simp [Renewer.Stop, h]

/-- Any positive number of Stop calls equals one Stop call. -/
theorem iterStop_succ_eq (r0 : Renewer) (n : Nat) :
    iterStop (n + 1) r0 = r0.Stop := by
  induction n with
  | zero => rfl
  | succ n ih =>
    show (iterStop (n + 1) r0).Stop = r0.Stop
    rw [ih, stop_stop]

end Vault

namespace Vault

/-- C1: evaluation of the code at the spec's example (grace = 10 s, loop
receives a renewal whose reported lifetime is 100 s). The claim says the
loop then sleeps about half the lifetime, 50 s = 50000000000 ns. The code
instead passes `time.Duration(leaseDuration/2.0) * time.Second` to
`time.After`, with `leaseDuration` already in nanoseconds, so the interval
is (50 s in ns) * 10^9, which overflows int64 and wraps to the negative
value -5340232221128654848 ns: the timer fires immediately instead of
after ~50 s. Both variants compute the same interval. -/
theorem C1_sleep_is_not_half_lifetime :
    renewAuthGo (10 * nanosPerSecond)
      [{ stopReadyAtCheck := false,
         remote := .ok (some { leaseID := "", renewable := true, leaseDuration := 100,
                               auth := some { clientToken := "tok", renewable := true,
                                              leaseDuration := 100 } }),
         stopWinsSleep := false }] = .more 1 1 [-5340232221128654848] ∧
    renewLeaseGo (10 * nanosPerSecond)
      [{ stopReadyAtCheck := false,
         remote := .ok (some { leaseID := "l", renewable := true, leaseDuration := 100,
                               auth := none }),
         stopWinsSleep := false }] = .more 1 1 [-5340232221128654848] ∧
    sleepNanos (durOfSeconds 100) = -5340232221128654848 ∧
    (-5340232221128654848 : Int) < 0 ∧
    sleepNanos (durOfSeconds 100) ≠ 50 * nanosPerSecond := by
  refine ⟨by decide, by decide, by decide, by decide, by decide⟩

/-- C2: in either variant, a renewal response whose reported remaining
lifetime (converted to a duration) is at most the configured grace makes
the loop return a nil outcome at that iteration, with exactly one remote
call in that iteration and none afterwards, whatever the rest of the trace
holds. -/
theorem C2_grace_exit_nil (grace : Int) (e e2 : IterEnv) (rest rest2 : List IterEnv)
    (sec sec2 : Secret) (a : SecretAuth)
    (h1 : e.stopReadyAtCheck = false) (h2 : e.remote = .ok (some sec))
    (h3 : sec.auth = some a) (h4 : a.renewable = true)
    (h5 : durOfSeconds a.leaseDuration ≤ grace)
    (g1 : e2.stopReadyAtCheck = false) (g2 : e2.remote = .ok (some sec2))
    (g3 : sec2.renewable = true) (g4 : durOfSeconds sec2.leaseDuration ≤ grace) :
    renewAuthGo grace (e :: rest) = .term none 1 1 [] ∧
    renewLeaseGo grace (e2 :: rest2) = .term none 1 1 [] := by
  constructor
  · unfold renewAuthGo
    simp [h1, h2, h3, h4, h5]
  · unfold renewLeaseGo
    simp [g1, g2, g3, g4]

/-- C2 witness: grace = 15 s, a renewal reporting 8 s terminates both
variants with a nil outcome and one call. -/
theorem C2_grace_exit_nil_witness :
    renewAuthGo (15 * nanosPerSecond)
      [{ stopReadyAtCheck := false,
         remote := .ok (some { leaseID := "", renewable := true, leaseDuration := 8,
                               auth := some { clientToken := "tok", renewable := true,
                                              leaseDuration := 8 } }),
         stopWinsSleep := false }] = .term none 1 1 [] ∧
    renewLeaseGo (15 * nanosPerSecond)
      [{ stopReadyAtCheck := false,
         remote := .ok (some { leaseID := "l", renewable := true, leaseDuration := 8,
                               auth := none }),
         stopWinsSleep := false }] = .term none 1 1 [] :=
  C2_grace_exit_nil (15 * nanosPerSecond) _ _ [] []
    _ _ _ rfl rfl rfl rfl (by decide) rfl rfl rfl (by decide)

end Vault

namespace Vault

/-- C4 counterexample: the done channel is created by `NewRenewer` with
buffer capacity 1, not 0, so the single terminal write completes even when
no consumer drains the channel — refuting the claim that the write blocks
until drained (equivalently, that there is no free buffer capacity for the
single terminal write). -/
theorem C4_done_write_not_blocking :
    NewRenewer (some { secret := some secW, grace := 7 }) =
      .ok { secret := secW, grace := 7, doneCapacity := 1, tickCapacity := 5,
            stopped := false, stopClosed := false, closeCount := 0 } ∧
    sendCompletesWithoutReceiver 1 0 = true := by
  refine ⟨rfl, by decide⟩

/-- C4 amended: every successfully constructed renewer's done channel has
buffer capacity exactly 1; the single terminal write therefore completes
without any consumer, and only a second write (which never occurs: the
done channel is written exactly once) would block. -/
theorem C4_done_capacity_one (s : Secret) (g : Int) :
    ∃ r, NewRenewer (some { secret := some s, grace := g }) = .ok r ∧
      r.doneCapacity = 1 ∧
      sendCompletesWithoutReceiver r.doneCapacity 0 = true ∧
      sendCompletesWithoutReceiver r.doneCapacity 1 = false := by
  exact ⟨_, rfl, rfl, rfl, rfl⟩

/-- C5: construction validates synchronously and in order — a nil input
yields the missing-input error, a nil secret yields the missing-secret
error (both returned directly, there being no channel in the constructor's
result type); on success a grace of exactly zero is replaced by the
15-second default, any other grace is kept, and the channels (done
capacity 1, tick capacity 5) and the not-stopped signal are initialized,
with no I/O anywhere in the (pure) constructor. -/
theorem C5_construction_validation :
    NewRenewer none = .error .missingInput ∧
    (∀ g, NewRenewer (some { secret := none, grace := g }) = .error .missingSecret) ∧
    (∀ s, NewRenewer (some { secret := some s, grace := 0 }) =
      .ok { secret := s, grace := DefaultRenewerGrace, doneCapacity := 1, tickCapacity := 5,
            stopped := false, stopClosed := false, closeCount := 0 }) ∧
    (∀ s g, g ≠ 0 → NewRenewer (some { secret := some s, grace := g }) =
      .ok { secret := s, grace := g, doneCapacity := 1, tickCapacity := 5,
            stopped := false, stopClosed := false, closeCount := 0 }) := by
  refine ⟨rfl, fun g => rfl, fun s => by simp [NewRenewer], fun s g hg => by simp [NewRenewer, hg]⟩

/-- C5 witness: a nonzero grace of 7 ns is kept unchanged. -/
theorem C5_construction_validation_witness :
    NewRenewer (some { secret := some secW, grace := 7 }) =
      .ok { secret := secW, grace := 7, doneCapacity := 1, tickCapacity := 5,
            stopped := false, stopClosed := false, closeCount := 0 } :=
  C5_construction_validation.2.2.2 secW 7 (by decide)

/-- C6: in either variant, a remote renewal call that returns an error
terminates the loop with exactly that error, one remote call in that
iteration and none afterwards, and no tick published for it, whatever the
rest of the trace holds. -/
theorem C6_remote_error_is_terminal (grace : Int) (e e2 : IterEnv)
    (rest rest2 : List IterEnv) (c c2 : Nat)
    (h1 : e.stopReadyAtCheck = false) (h2 : e.remote = .err c)
    (g1 : e2.stopReadyAtCheck = false) (g2 : e2.remote = .err c2) :
    renewAuthGo grace (e :: rest) = .term (some (.remote c)) 1 0 [] ∧
    renewLeaseGo grace (e2 :: rest2) = .term (some (.remote c2)) 1 0 [] := by
  constructor
  · unfold renewAuthGo
    simp [h1, h2]
  · unfold renewLeaseGo
    simp [g1, g2]

/-- C6 witness: a remote error with code 42 is the terminal outcome in
both variants. -/
theorem C6_remote_error_is_terminal_witness :
    renewAuthGo 0 [{ stopReadyAtCheck := false, remote := .err 42, stopWinsSleep := false }]
      = .term (some (.remote 42)) 1 0 [] ∧
    renewLeaseGo 0 [{ stopReadyAtCheck := false, remote := .err 42, stopWinsSleep := false }]
      = .term (some (.remote 42)) 1 0 [] :=
  C6_remote_error_is_terminal 0 _ _ [] [] 42 42 rfl rfl rfl rfl

/-- C7: variant preconditions — an auth credential whose renewable flag is
false or whose token is empty, and a leased secret whose renewable flag is
false or whose lease identifier is empty, terminate immediately with the
NotRenewable outcome, zero remote calls and zero tick publications. -/
theorem C7_preconditions_not_renewable (a : SecretAuth) (s : Secret)
    (grace grace2 : Int) (ev ev2 : List IterEnv)
    (ha : a.renewable = false ∨ a.clientToken = "")
    (hs : s.renewable = false ∨ s.leaseID = "") :
    renewAuth a grace ev = .term (some .notRenewable) 0 0 [] ∧
    renewLease s grace2 ev2 = .term (some .notRenewable) 0 0 [] := by
  constructor
  · unfold renewAuth
    rcases ha with h | h <;> simp [h]
  · unfold renewLease
    rcases hs with h | h <;> simp [h]

/-- C7 witness: a non-renewable auth credential and a leased secret with
an empty lease identifier both yield NotRenewable with zero calls. -/
theorem C7_preconditions_not_renewable_witness :
    renewAuth { clientToken := "tok", renewable := false, leaseDuration := 100 } 0
      [{ stopReadyAtCheck := false, remote := .err 0, stopWinsSleep := false }]
      = .term (some .notRenewable) 0 0 [] ∧
    renewLease { leaseID := "", renewable := true, leaseDuration := 100, auth := none } 0
      [{ stopReadyAtCheck := false, remote := .err 0, stopWinsSleep := false }]
      = .term (some .notRenewable) 0 0 [] :=
  C7_preconditions_not_renewable _ _ 0 0 _ _ (Or.inl rfl) (Or.inr rfl)

/-- C9: a renewal call that succeeds but yields no usable payload — a nil
renewal in either variant, or (auth variant) a renewal with nil auth data —
terminates the loop with the NoSecretData outcome, one remote call in that
iteration and none afterwards. -/
theorem C9_no_data_is_terminal (grace : Int) (e e2 e3 : IterEnv)
    (rest rest2 rest3 : List IterEnv) (sec : Secret)
    (h1 : e.stopReadyAtCheck = false) (h2 : e.remote = .ok none)
    (g1 : e2.stopReadyAtCheck = false) (g2 : e2.remote = .ok (some sec))
    (g3 : sec.auth = none)
    (k1 : e3.stopReadyAtCheck = false) (k2 : e3.remote = .ok none) :
    renewAuthGo grace (e :: rest) = .term (some .noSecretData) 1 1 [] ∧
    renewAuthGo grace (e2 :: rest2) = .term (some .noSecretData) 1 1 [] ∧
    renewLeaseGo grace (e3 :: rest3) = .term (some .noSecretData) 1 1 [] := by
  refine ⟨?_, ?_, ?_⟩
  · unfold renewAuthGo
    simp [h1, h2]
  · unfold renewAuthGo
    simp [g1, g2, g3]
  · unfold renewLeaseGo
    simp [k1, k2]

/-- C9 witness: a nil renewal and a renewal with nil auth data both
terminate with NoSecretData. -/
theorem C9_no_data_is_terminal_witness :
    renewAuthGo 0 [{ stopReadyAtCheck := false, remote := .ok none, stopWinsSleep := false }]
      = .term (some .noSecretData) 1 1 [] ∧
    renewAuthGo 0 [{ stopReadyAtCheck := false,
                     remote := .ok (some { leaseID := "l", renewable := true,
                                           leaseDuration := 100, auth := none }),
                     stopWinsSleep := false }]
      = .term (some .noSecretData) 1 1 [] ∧
    renewLeaseGo 0 [{ stopReadyAtCheck := false, remote := .ok none, stopWinsSleep := false }]
      = .term (some .noSecretData) 1 1 [] :=
  C9_no_data_is_terminal 0 _ _ _ [] [] [] _ rfl rfl rfl rfl rfl rfl rfl

end Vault

namespace Vault

/-- C10 counterexample: construction with the strictly negative grace of
-1 ns does keep the grace, but the lifetime-at-or-below-grace exit CAN
fire for a non-negative reported lifetime: a response reporting a lifetime
of 10^10 seconds overflows int64 when converted to nanoseconds, wraps to
the negative duration -8446744073709551616 ns, compares at or below -1,
and the loop terminates at that response with outcome nil — refuting the
claim that the exit never fires for any non-negative reported lifetime. -/
theorem C10_negative_grace_exit_can_fire :
    NewRenewer (some { secret := some leaseSecW, grace := -1 }) =
      .ok { secret := leaseSecW, grace := -1, doneCapacity := 1, tickCapacity := 5,
            stopped := false, stopClosed := false, closeCount := 0 } ∧
    (0 : Int) ≤ 10000000000 ∧
    durOfSeconds 10000000000 = -8446744073709551616 ∧
    renewLeaseGo (-1)
      [{ stopReadyAtCheck := false,
         remote := .ok (some { leaseID := "l", renewable := true,
                               leaseDuration := 10000000000, auth := none }),
         stopWinsSleep := false }] = .term none 1 1 [] := by
  refine ⟨rfl, by decide, by decide, by decide⟩

/-- C10 amended: for every input with a strictly negative grace,
construction succeeds and keeps that grace unchanged; and the
lifetime-at-or-below-grace exit never fires for a non-negative reported
lifetime whose conversion to nanoseconds does not overflow int64 (that is,
lifetime at most 9223372036 seconds): at such a response the loop instead
proceeds to the sleep select. For larger lifetimes the converted duration
wraps negative and the exit can fire even with a negative grace. -/
theorem C10_negative_grace_kept (g L : Int) (s s2 : Secret) (e : IterEnv)
    (rest : List IterEnv)
    (hg : g < 0) (hL0 : 0 ≤ L) (hLmax : L ≤ 9223372036)
    (h1 : e.stopReadyAtCheck = false) (h2 : e.remote = .ok (some s))
    (h3 : s.renewable = true) (h4 : s.leaseDuration = L) :
    NewRenewer (some { secret := some s2, grace := g }) =
      .ok { secret := s2, grace := g, doneCapacity := 1, tickCapacity := 5,
            stopped := false, stopClosed := false, closeCount := 0 } ∧
    durOfSeconds L = L * nanosPerSecond ∧
    ¬ durOfSeconds L ≤ g ∧
    renewLeaseGo g (e :: rest) =
      (if e.stopWinsSleep then .term none 1 1 [sleepNanos (durOfSeconds L)]
       else (renewLeaseGo g rest).bump 1 1 (sleepNanos (durOfSeconds L))) := by
  have hd : durOfSeconds L = L * nanosPerSecond := by
    unfold durOfSeconds
    refine wrap64_id _ ?_ ?_
    · unfold nanosPerSecond
      omega
    · unfold nanosPerSecond
      omega
  have hpos : (0 : Int) ≤ durOfSeconds L := by
    rw [hd]
    unfold nanosPerSecond
    omega
  have hnle : ¬ durOfSeconds L ≤ g := by omega
  refine ⟨by simp [NewRenewer, hg.ne], hd, hnle, ?_⟩
  conv_lhs => rw [renewLeaseGo]
  simp [h1, h2, h3, h4, hnle]

/-- C10 witness: grace = -5 ns and a renewal reporting 100 s proceed to
the sleep select rather than taking the grace exit. -/
theorem C10_negative_grace_kept_witness :
    NewRenewer (some { secret := some leaseSecW, grace := -5 }) =
      .ok { secret := leaseSecW, grace := -5, doneCapacity := 1, tickCapacity := 5,
            stopped := false, stopClosed := false, closeCount := 0 } ∧
    durOfSeconds 100 = 100 * nanosPerSecond ∧
    ¬ durOfSeconds 100 ≤ (-5 : Int) ∧
    renewLeaseGo (-5)
      [{ stopReadyAtCheck := false,
         remote := .ok (some { leaseID := "l", renewable := true, leaseDuration := 100,
                               auth := none }),
         stopWinsSleep := false }] =
      (if (false : Bool) then LoopOut.term none 1 1 [sleepNanos (durOfSeconds 100)]
       else (renewLeaseGo (-5) []).bump 1 1 (sleepNanos (durOfSeconds 100))) :=
  C10_negative_grace_kept (-5) 100 _ leaseSecW
    { stopReadyAtCheck := false,
      remote := .ok (some { leaseID := "l", renewable := true, leaseDuration := 100,
                            auth := none }),
      stopWinsSleep := false } []
    (by decide) (by decide) (by decide) rfl rfl rfl rfl

end Vault

namespace Vault

/-- C3: Stop is idempotent and safe. Stop after Stop is a no-op on any
state; starting from any freshly constructed renewer, any number of Stop
calls closes the stop channel at most once, never attempts to close an
already-closed channel (the only panic source), and any positive number of
calls yields the same state as one call. After the first Stop the stop
channel is closed, and a loop iteration whose cancellation check sees the
closed channel returns the nil outcome with zero further remote calls and
zero ticks, in both variants. Concurrency is modelled by the mutex's
serialization of Stop calls and the loop's check into an interleaving of
atomic steps. -/
theorem C3_stop_idempotent_safe (i : RenewerInput) (r0 : Renewer)
    (hr : NewRenewer (some i) = .ok r0) :
    (∀ r : Renewer, r.Stop.Stop = r.Stop) ∧
    (∀ n, (iterStop n r0).closeCount ≤ 1) ∧
    (∀ n, (iterStop n r0).stopWouldPanic = false) ∧
    (∀ n, 1 ≤ n → iterStop n r0 = iterStop 1 r0) ∧
    (1 ≤ (1 : Nat) → (iterStop 1 r0).stopClosed = true) ∧
    (∀ grace e rest, e.stopReadyAtCheck = true →
      renewAuthGo grace (e :: rest) = .term none 0 0 [] ∧
      renewLeaseGo grace (e :: rest) = .term none 0 0 []) := by
  obtain ⟨osec, g⟩ := i
  cases osec with
  | none => simp [NewRenewer] at hr
  | some s =>
    simp only [NewRenewer, Except.ok.injEq] at hr
    have h0 : r0.stopped = false := by rw [← hr]
    have h1 : r0.stopClosed = false := by rw [← hr]
    have h2 : r0.closeCount = 0 := by rw [← hr]
    have hstop : r0.Stop = { r0 with stopped := true, stopClosed := true, closeCount := r0.closeCount + 1 } := by
      simp [Renewer.Stop, h0]
    refine ⟨stop_stop, ?_, ?_, ?_, ?_, ?_⟩
    · intro n
      cases n with
      | zero => simp [iterStop, h2]
      | succ m =>
        rw [iterStop_succ_eq, hstop]
        simp [h2]
    · intro n
      cases n with
      | zero => simp [iterStop, Renewer.stopWouldPanic, h0, h1]
      | succ m =>
        rw [iterStop_succ_eq, hstop]
        simp [Renewer.stopWouldPanic]
    · intro n hn
      cases n with
      | zero => omega
      | succ m => rw [iterStop_succ_eq, iterStop_succ_eq]
    · intro _
      rw [iterStop_succ_eq, hstop]
    · intro grace e rest he
      constructor
      · conv_lhs => rw [renewAuthGo]
        simp [he]
      · conv_lhs => rw [renewLeaseGo]
        simp [he]

/-- A concrete freshly constructed renewer used by witnesses. -/
def rW : Renewer :=
  { secret := secW, grace := 7, doneCapacity := 1, tickCapacity := 5,
    stopped := false, stopClosed := false, closeCount := 0 }

/-- C3 witness: three Stop calls on a concrete renewer close the channel
at most once, would never panic, and equal one Stop call. -/
theorem C3_stop_idempotent_safe_witness :
    (iterStop 3 rW).closeCount ≤ 1 ∧
    (iterStop 3 rW).stopWouldPanic = false ∧
    iterStop 3 rW = iterStop 1 rW :=
  ⟨(C3_stop_idempotent_safe { secret := some secW, grace := 7 } rW rfl).2.1 3,
   (C3_stop_idempotent_safe { secret := some secW, grace := 7 } rW rfl).2.2.1 3,
   (C3_stop_idempotent_safe { secret := some secW, grace := 7 } rW rfl).2.2.2.1 3 (by decide)⟩

end Vault

namespace Vault

/-- One continuing iteration of the auth loop adds exactly one remote
call, one tick attempt and one sleep before the rest of the run. -/
theorem renewAuthGo_cons_continue (grace : Int) (e : IterEnv) (l : List IterEnv)
    (h : continuesAuth grace e = true) :
    ∃ s : Int, renewAuthGo grace (e :: l) = (renewAuthGo grace l).bump 1 1 s := by
  obtain ⟨stopB, rem, sleepB⟩ := e
  cases stopB with
  | true => simp [continuesAuth] at h
  | false =>
    cases rem with
    | err c => simp [continuesAuth] at h
    | ok renewal =>
      cases renewal with
      | none => simp [continuesAuth] at h
      | some sec =>
        cases ha : sec.auth with
        | none => simp [continuesAuth, ha] at h
        | some a =>
          simp [continuesAuth, ha] at h
          obtain ⟨⟨hren, hlt⟩, hsleep⟩ := h
          subst hsleep
          refine ⟨sleepNanos (durOfSeconds a.leaseDuration), ?_⟩
          conv_lhs => rw [renewAuthGo]
          simp [ha, hren, not_le.mpr hlt]

/-- One continuing iteration of the lease loop adds exactly one remote
call, one tick attempt and one sleep before the rest of the run. -/
theorem renewLeaseGo_cons_continue (grace : Int) (e : IterEnv) (l : List IterEnv)
    (h : continuesLease grace e = true) :
    ∃ s : Int, renewLeaseGo grace (e :: l) = (renewLeaseGo grace l).bump 1 1 s := by
  obtain ⟨stopB, rem, sleepB⟩ := e
  cases stopB with
  | true => simp [continuesLease] at h
  | false =>
    cases rem with
    | err c => simp [continuesLease] at h
    | ok renewal =>
      cases renewal with
      | none => simp [continuesLease] at h
      | some sec =>
        simp [continuesLease] at h
        obtain ⟨⟨hren, hlt⟩, hsleep⟩ := h
        subst hsleep
        refine ⟨sleepNanos (durOfSeconds sec.leaseDuration), ?_⟩
        conv_lhs => rw [renewLeaseGo]
        simp [hren, not_le.mpr hlt]

/-- A prefix of continuing auth iterations preserves the terminal outcome
of the suffix and contributes exactly one remote call each. -/
theorem renewAuthGo_append_continue (grace : Int) (pre l : List IterEnv)
    (h : ∀ x ∈ pre, continuesAuth grace x = true) :
    (renewAuthGo grace (pre ++ l)).terminalOutcome = (renewAuthGo grace l).terminalOutcome ∧
    (renewAuthGo grace (pre ++ l)).remoteCalls = pre.length + (renewAuthGo grace l).remoteCalls := by
  induction pre with
  | nil => simp
  | cons e pre ih =>
    have he : continuesAuth grace e = true := h e (List.mem_cons_self e pre)
    have hrest : ∀ x ∈ pre, continuesAuth grace x = true :=
      fun x hx => h x (List.mem_cons_of_mem e hx)
    obtain ⟨hout, hcalls⟩ := ih hrest
    obtain ⟨s, hs⟩ := renewAuthGo_cons_continue grace e (pre ++ l) he
    rw [List.cons_append, hs, LoopOut.bump_terminalOutcome, LoopOut.bump_remoteCalls,
      hout, hcalls]
    refine ⟨rfl, ?_⟩
    simp only [List.length_cons]
    omega

/-- A prefix of continuing lease iterations preserves the terminal outcome
of the suffix and contributes exactly one remote call each. -/
theorem renewLeaseGo_append_continue (grace : Int) (pre l : List IterEnv)
    (h : ∀ x ∈ pre, continuesLease grace x = true) :
    (renewLeaseGo grace (pre ++ l)).terminalOutcome = (renewLeaseGo grace l).terminalOutcome ∧
    (renewLeaseGo grace (pre ++ l)).remoteCalls = pre.length + (renewLeaseGo grace l).remoteCalls := by
  induction pre with
  | nil => simp
  | cons e pre ih =>
    have he : continuesLease grace e = true := h e (List.mem_cons_self e pre)
    have hrest : ∀ x ∈ pre, continuesLease grace x = true :=
      fun x hx => h x (List.mem_cons_of_mem e hx)
    obtain ⟨hout, hcalls⟩ := ih hrest
    obtain ⟨s, hs⟩ := renewLeaseGo_cons_continue grace e (pre ++ l) he
    rw [List.cons_append, hs, LoopOut.bump_terminalOutcome, LoopOut.bump_remoteCalls,
      hout, hcalls]
    refine ⟨rfl, ?_⟩
    simp only [List.length_cons]
    omega

/-- C8: in either variant, after any (possibly empty) run of successful
renewable responses, a response reporting renewable = false terminates the
loop with the NotRenewable outcome; the remote-call count is exactly the
continuing iterations plus the final one, so no further remote calls occur
after that response. -/
theorem C8_renewable_false_terminal (grace : Int) (pre rest pre2 rest2 : List IterEnv)
    (e e2 : IterEnv) (sec sec2 : Secret) (a : SecretAuth)
    (hpre : ∀ x ∈ pre, continuesAuth grace x = true)
    (h1 : e.stopReadyAtCheck = false) (h2 : e.remote = .ok (some sec))
    (h3 : sec.auth = some a) (h4 : a.renewable = false)
    (hpre2 : ∀ x ∈ pre2, continuesLease grace x = true)
    (g1 : e2.stopReadyAtCheck = false) (g2 : e2.remote = .ok (some sec2))
    (g3 : sec2.renewable = false) :
    (renewAuthGo grace (pre ++ e :: rest)).terminalOutcome = some (some .notRenewable) ∧
    (renewAuthGo grace (pre ++ e :: rest)).remoteCalls = pre.length + 1 ∧
    (renewLeaseGo grace (pre2 ++ e2 :: rest2)).terminalOutcome = some (some .notRenewable) ∧
    (renewLeaseGo grace (pre2 ++ e2 :: rest2)).remoteCalls = pre2.length + 1 := by
  obtain ⟨hout, hcalls⟩ := renewAuthGo_append_continue grace pre (e :: rest) hpre
  obtain ⟨hout2, hcalls2⟩ := renewLeaseGo_append_continue grace pre2 (e2 :: rest2) hpre2
  have hone : renewAuthGo grace (e :: rest) = .term (some .notRenewable) 1 1 [] := by
    conv_lhs => rw [renewAuthGo]
    simp [h1, h2, h3, h4]
  have hone2 : renewLeaseGo grace (e2 :: rest2) = .term (some .notRenewable) 1 1 [] := by
    conv_lhs => rw [renewLeaseGo]
    simp [g1, g2, g3]
  rw [hout, hcalls, hout2, hcalls2, hone, hone2]
  exact ⟨rfl, rfl, rfl, rfl⟩

/-- A continuing iteration used by witnesses: a successful renewable
response reporting a 100 s lifetime. -/
def evContinueW : IterEnv :=
  { stopReadyAtCheck := false, remote := .ok (some secW), stopWinsSleep := false }

/-- A response reporting renewable = false (both at the secret and at its
auth data), used by witnesses. -/
def evNotRenewableW : IterEnv :=
  { stopReadyAtCheck := false,
    remote := .ok (some { leaseID := "lease-1", renewable := false, leaseDuration := 100,
                          auth := some { clientToken := "tok", renewable := false,
                                         leaseDuration := 100 } }),
    stopWinsSleep := false }

/-- C8 witness: with grace = 10 s, one renewable 100 s response followed
by a renewable = false response yields NotRenewable after exactly two
remote calls, in both variants. -/
theorem C8_renewable_false_terminal_witness :
    (renewAuthGo (10 * nanosPerSecond)
      ([evContinueW] ++ evNotRenewableW :: [])).terminalOutcome
        = some (some .notRenewable) ∧
    (renewAuthGo (10 * nanosPerSecond)
      ([evContinueW] ++ evNotRenewableW :: [])).remoteCalls = 2 ∧
    (renewLeaseGo (10 * nanosPerSecond)
      ([evContinueW] ++ evNotRenewableW :: [])).terminalOutcome
        = some (some .notRenewable) ∧
    (renewLeaseGo (10 * nanosPerSecond)
      ([evContinueW] ++ evNotRenewableW :: [])).remoteCalls = 2 :=
  C8_renewable_false_terminal (10 * nanosPerSecond) [evContinueW] [] [evContinueW] []
    evNotRenewableW evNotRenewableW _ _ _
    (by decide) rfl rfl rfl rfl (by decide) rfl rfl rfl

end Vault
